import Mathlib

/-!
Shallow embedding of the transaction-preparation core of the repository
(`packages/client/src/transactions/prepareTransaction.ts` and
`packages/client/src/controllers/splTransferController.ts`), together with
theorems settling the frozen claims about it.

Modelling conventions:
* JavaScript numbers used as the compute-unit-limit multiplier are modelled
  as exact rationals (`ℚ`); compute-unit counts are natural numbers.
* The RPC is modelled as an oracle: `blockhashAt k` is the value returned by
  the k-th `getLatestBlockhash().send()` call of one `prepareTransaction`
  call, and `simulate s` the (single) response of
  `simulateTransaction(s, …).send()`.
* Asynchronous sequencing is the source's: the code awaits each call in
  order, so one `prepareTransaction` run is a pure function from the oracle
  to a result together with the ordered trace of its observable effects
  (RPC calls and the `logRequest` callback invocation).
* JavaScript errors are modelled by `JsError`: a `SolanaError` carries a
  numeric code and an optional cause; any other error is `plain` with a
  message and an optional cause (an error's `cause` may be any error).
-/

/-- One link of an error's cause chain: either a `SolanaError` carrying a
numeric code (`isSolanaError` recognises exactly these) or any other error
value carrying a message. -/
inductive ErrorLink where
  | solanaLink (code : Nat)
  | plainLink (msg : String)
deriving DecidableEq, Repr

/-- An error as seen by the code: the head of the list is the error itself
and the tail is its (linear) chain of `cause` values; the empty tail means
the `cause` field is absent. -/
abbrev JsError := List ErrorLink

/-- Numeric code of `SOLANA_ERROR__INSTRUCTION_ERROR__COMPUTATIONAL_BUDGET_EXCEEDED`. -/
def COMPUTATIONAL_BUDGET_EXCEEDED_CODE : Nat := 4615026

/-- A transaction instruction: program address, account list, opaque data bytes. -/
structure Instruction where
  programAddress : String
  accounts : List String
  data : List Nat
deriving DecidableEq, Repr

/-- The compute-budget program address constant. -/
def COMPUTE_BUDGET_PROGRAM_ADDRESS : String := "ComputeBudget111111111111111111111111111111"

/-- Blockhash lifetime value returned by `getLatestBlockhash`. -/
structure Blockhash where
  blockhash : String
  lastValidBlockHeight : Nat
deriving DecidableEq, Repr

/-- The transaction message value: fee payer, ordered instructions, optional
lifetime constraint (absent = not yet bound). -/
structure TransactionMessage where
  version : Nat
  feePayer : String
  instructions : List Instruction
  lifetimeConstraint : Option Blockhash
deriving DecidableEq, Repr

/-- Embeds `setTransactionMessageLifetimeUsingBlockhash` from the kit: returns
a copy of the message with the lifetime constraint bound to `latest`. -/
def setTransactionMessageLifetimeUsingBlockhash (latest : Blockhash) (tx : TransactionMessage) :
    TransactionMessage :=
  { tx with lifetimeConstraint := some latest }

/-- Embeds `appendTransactionMessageInstruction`: appends to the end of the list. -/
def appendTransactionMessageInstruction (ix : Instruction) (tx : TransactionMessage) :
    TransactionMessage :=
  { tx with instructions := tx.instructions ++ [ix] }

/-- Little-endian 32-bit byte encoding of a unit count. -/
def u32le (n : Nat) : List Nat :=
  [n % 256, n / 256 % 256, n / 65536 % 256, n / 16777216 % 256]

/-- Embeds `getSetComputeUnitLimitInstruction({ units })`: the compute-budget
program instruction whose data is the discriminant byte 2 followed by the
32-bit little-endian unit count. -/
def getSetComputeUnitLimitInstruction (units : Nat) : Instruction :=
  { programAddress := COMPUTE_BUDGET_PROGRAM_ADDRESS
    accounts := []
    data := 2 :: u32le units }

/-- Embeds `isComputeUnitLimitInstruction` (prepareTransaction.ts lines 38-44):
program address matches the compute-budget program and the first data byte is
the SetComputeUnitLimit discriminant 2. -/
def isComputeUnitLimitInstruction (instruction : Instruction) : Bool :=
  instruction.programAddress == COMPUTE_BUDGET_PROGRAM_ADDRESS &&
    instruction.data.head? == some 2

/-- Embeds `didExceedComputeBudget` (lines 46-55): walk the cause chain while
the current value `isSolanaError`, returning true on the first link carrying
the computational-budget-exceeded code.  A non-Solana link (or a missing
cause) stops the walk with false. -/
def didExceedComputeBudget : JsError → Bool
  | [] => false
  | .solanaLink code :: cause =>
    if code == COMPUTATIONAL_BUDGET_EXCEEDED_CODE then true
    else didExceedComputeBudget cause
  | .plainLink _ :: _ => false

/-- The `unitsConsumed` field of a simulation response: absent (`null` /
`undefined`), a numeric count, or a non-numeric value. -/
inductive SimUnits where
  | missing
  | numeric (n : Nat)
  | nonNumeric
deriving DecidableEq, Repr

/-- Embeds `Number(value.unitsConsumed ?? 0) || 0` (line 80): absent or
non-numeric values collapse to 0. -/
def unitsConsumedToNumber : SimUnits → Nat
  | .missing => 0
  | .numeric n => n
  | .nonNumeric => 0

/-- The `value` of a simulation response. -/
structure SimulateValue where
  unitsConsumed : SimUnits
deriving DecidableEq, Repr

/-- RPC oracle: `blockhashAt k` is the k-th `getLatestBlockhash` response of
the run; `simulate s` is the response to simulating wire transaction `s`. -/
structure Rpc where
  blockhashAt : Nat → Blockhash
  simulate : String → Except JsError SimulateValue

/-- Observable effects of a `prepareTransaction` run, in order. -/
inductive Event where
  | getLatestBlockhashCall
  | simulateCall (base64 : String)
  | logRequestCall (base64 : String)
deriving DecidableEq, Repr

/-- True exactly on `simulateCall` events. -/
def Event.isSimulateCall : Event → Bool
  | .simulateCall _ => true
  | _ => false

/-- True exactly on `logRequestCall` events. -/
def Event.isLogRequestCall : Event → Bool
  | .logRequestCall _ => true
  | _ => false

/-- True exactly on `getLatestBlockhashCall` events. -/
def Event.isGetLatestBlockhashCall : Event → Bool
  | .getLatestBlockhashCall => true
  | _ => false

/-- Modelled from the spec: `transactionToBase64` lives in the repository's
`transactions/base64.ts`, which is not under src/; the spec treats wire
encoding as an opaque, bit-exact encode capability, so it is modelled as a
deterministic total encoding of the message value. -/
def transactionToBase64 (tx : TransactionMessage) : String :=
  toString (repr tx)

def DEFAULT_COMPUTE_UNIT_LIMIT_MULTIPLIER : ℚ := 11 / 10

def DEFAULT_COMPUTE_UNIT_LIMIT : Nat := 200000

def MAX_COMPUTE_UNIT_LIMIT : Nat := 1400000

/-- Embeds `estimateComputeUnits` (lines 57-87).  `blockhashCalls` counts the
`getLatestBlockhash` calls already made in this run (to index the oracle);
the result is the estimator's outcome, the updated call count, and the trace
of RPC calls made. -/
def estimateComputeUnits (rpc : Rpc) (blockhashCalls : Nat) (transaction : TransactionMessage) :
    Except JsError Nat × Nat × List Event :=
  let hasLifetime := transaction.lifetimeConstraint.isSome
  let scratch :=
    if !hasLifetime then
      let latest := rpc.blockhashAt blockhashCalls
      (setTransactionMessageLifetimeUsingBlockhash latest transaction,
        blockhashCalls + 1, [Event.getLatestBlockhashCall])
    else (transaction, blockhashCalls, ([] : List Event))
  let base64Transaction := transactionToBase64 scratch.1
  match rpc.simulate base64Transaction with
  | .ok value =>
    (.ok (unitsConsumedToNumber value.unitsConsumed), scratch.2.1,
      scratch.2.2 ++ [Event.simulateCall base64Transaction])
  | .error e =>
    if didExceedComputeBudget e then
      (.ok MAX_COMPUTE_UNIT_LIMIT, scratch.2.1,
        scratch.2.2 ++ [Event.simulateCall base64Transaction])
    else
      (.error e, scratch.2.1, scratch.2.2 ++ [Event.simulateCall base64Transaction])

/-- Embeds lines 101-107 of `prepareTransaction`: turn the simulated unit
count into the declared limit.  A falsy (zero) estimate is replaced by the
default before clamping; otherwise the estimate is multiplied and rounded up,
then clamped between the default floor and the network ceiling. -/
def computeUnitsFromEstimate (unitsFromSimulation : Nat) (multiplier : ℚ) : Int :=
  let estimatedUnits : Int :=
    if unitsFromSimulation ≠ 0 then ⌈(unitsFromSimulation : ℚ) * multiplier⌉
    else (DEFAULT_COMPUTE_UNIT_LIMIT : Int)
  min (MAX_COMPUTE_UNIT_LIMIT : Int) (max (DEFAULT_COMPUTE_UNIT_LIMIT : Int) (max 1 estimatedUnits))

/-- Configuration of `prepareTransaction` (lines 21-32): the transaction, the
optional options, whether a `logRequest` callback was supplied, and the RPC. -/
structure PrepareTransactionConfig where
  transaction : TransactionMessage
  computeUnitLimitMultiplier : Option ℚ := none
  computeUnitLimitReset : Option Bool := none
  blockhashReset : Option Bool := none
  logRequest : Bool := false
  rpc : Rpc

/-- Embeds `prepareTransaction` (lines 89-141).  Returns the prepared message
(or the propagated error) together with the ordered trace of observable
effects. -/
def prepareTransaction (config : PrepareTransactionConfig) :
    Except JsError TransactionMessage × List Event :=
  let multiplier := config.computeUnitLimitMultiplier.getD DEFAULT_COMPUTE_UNIT_LIMIT_MULTIPLIER
  let shouldResetBlockhash := config.blockhashReset != some false
  let shouldResetComputeUnits := config.computeUnitLimitReset.getD false
  let transaction := config.transaction
  let computeLimitIndex := transaction.instructions.findIdx? isComputeUnitLimitInstruction
  let stepA : Except JsError (TransactionMessage × Nat) × List Event :=
    if computeLimitIndex.isNone || shouldResetComputeUnits then
      match estimateComputeUnits config.rpc 0 transaction with
      | (.error e, _, events) => (.error e, events)
      | (.ok unitsFromSimulation, blockhashCalls, events) =>
        let units := (computeUnitsFromEstimate unitsFromSimulation multiplier).toNat
        let instruction := getSetComputeUnitLimitInstruction units
        match computeLimitIndex with
        | none =>
          (.ok (appendTransactionMessageInstruction instruction transaction, blockhashCalls),
            events)
        | some i =>
          (.ok ({ transaction with instructions := transaction.instructions.set i instruction },
            blockhashCalls), events)
    else (.ok (transaction, 0), [])
  match stepA with
  | (.error e, events) => (.error e, events)
  | (.ok (tx1, blockhashCalls), events) =>
    let transactionHasLifetime := tx1.lifetimeConstraint.isSome
    let stepB : TransactionMessage × List Event :=
      if shouldResetBlockhash || !transactionHasLifetime then
        let latest := config.rpc.blockhashAt blockhashCalls
        let tx2 :=
          if !transactionHasLifetime then
            setTransactionMessageLifetimeUsingBlockhash latest tx1
          else if shouldResetBlockhash then
            { tx1 with lifetimeConstraint := some latest }
          else tx1
        (tx2, events ++ [Event.getLatestBlockhashCall])
      else (tx1, events)
    if config.logRequest then
      (.ok stepB.1, stepB.2 ++ [Event.logRequestCall (transactionToBase64 stepB.1)])
    else (.ok stepB.1, stepB.2)

/-!
The SPL transfer controller
(`packages/client/src/controllers/splTransferController.ts`).
Authority and source-owner values are modelled as opaque strings; a present
value is truthy (the real values are signer objects and non-empty addresses).
A provider is modelled by the value its invocation yields: `none` = no
provider configured, `some r` = a provider returning `r`.
-/

/-- Modelled from the spec: the `AsyncState` tagged variant lives in the
repository's `state/asyncState.ts`, which is not under src/; the spec defines
it as `{status: idle} | {status: loading} | {status: success, data} |
{status: error, error}`. -/
inductive AsyncState (T : Type) where
  | idle
  | loading
  | success (data : T)
  | error (e : JsError)
deriving DecidableEq, Repr

/-- Modelled from the spec: `createInitialAsyncState` produces the `idle`
state a controller starts in. -/
def createInitialAsyncState (T : Type) : AsyncState T := AsyncState.idle

/-- The controller's input (`SplTransferInput`): the prepare config with
`authority` and `sourceOwner` made optional. -/
structure SplTransferInput where
  amount : Nat
  destinationOwner : String
  authority : Option String := none
  sourceOwner : Option String := none
deriving DecidableEq, Repr

/-- The fully resolved transfer config (`SplTransferPrepareConfig`). -/
structure SplTransferPrepareConfig where
  amount : Nat
  destinationOwner : String
  authority : String
  sourceOwner : String
deriving DecidableEq, Repr

/-- Structural infix test on character lists (used to state that an error
message mentions a given field name). -/
def listHasInfix (pat : List Char) : List Char → Bool
  | [] => pat.isEmpty
  | c :: rest => pat.isPrefixOf (c :: rest) || listHasInfix pat rest

/-- A message mentions a phrase when the phrase occurs in it verbatim. -/
def messageMentions (msg pattern : String) : Bool :=
  listHasInfix pattern.toList msg.toList

/-- Error message thrown when no authority can be resolved (line 35). -/
def authorityErrorMessage : String :=
  "Connect a wallet or supply an `authority` before sending SPL tokens."

/-- Error message thrown when no source owner can be resolved (line 39). -/
def sourceOwnerErrorMessage : String :=
  "Unable to resolve a source owner for the SPL token transfer."

/-- Embeds `ensureTransferConfig` (lines 28-46): fill in the authority and
source owner from the given resolvers, throwing a distinct descriptive error
for whichever required field is still missing. -/
def ensureTransferConfig (input : SplTransferInput)
    (resolveAuthority : Option (Option String))
    (resolveSourceOwner : Option (Option String)) :
    Except JsError SplTransferPrepareConfig :=
  let authority := input.authority.orElse fun _ => resolveAuthority.getD none
  match authority with
  | none => .error [ErrorLink.plainLink authorityErrorMessage]
  | some authority =>
    let sourceOwner := input.sourceOwner.orElse fun _ => resolveSourceOwner.getD none
    match sourceOwner with
    | none => .error [ErrorLink.plainLink sourceOwnerErrorMessage]
    | some sourceOwner =>
      .ok { amount := input.amount, destinationOwner := input.destinationOwner,
            authority := authority, sourceOwner := sourceOwner }

/-- The controller's construction-time configuration
(`SplTransferControllerConfig`): the two optional providers and the domain
helper, modelled by the outcome of its `sendTransfer` call on a resolved
config and options value. -/
structure SplTransferControllerConfig where
  authorityProvider : Option (Option String) := none
  sendTransfer : SplTransferPrepareConfig → Option String → Except JsError String
  sourceOwnerProvider : Option (Option String) := none

/-- Observable effects of one controller `send` call, in order: each state
published to subscribers and the invocation of the domain operation. -/
inductive CtrlEvent where
  | statePublished (s : AsyncState String)
  | domainInvoked (resolved : SplTransferPrepareConfig) (options : Option String)
deriving DecidableEq, Repr

/-- The states a trace publishes, in order. -/
def publishedStates (trace : List CtrlEvent) : List (AsyncState String) :=
  trace.filterMap fun e =>
    match e with
    | .statePublished s => some s
    | _ => none

/-- Embeds `send` (lines 66-81): resolve the config (passing a provider only
when the input lacks the field), publish `loading`, run the domain operation,
then publish `success` with the result or publish `error` and re-throw. -/
def controllerSend (config : SplTransferControllerConfig) (input : SplTransferInput)
    (options : Option String) : Except JsError String × List CtrlEvent :=
  match ensureTransferConfig input
      (if input.authority.isSome then none else config.authorityProvider)
      (if input.sourceOwner.isSome then none else config.sourceOwnerProvider) with
  | .error e => (.error e, [])
  | .ok resolvedConfig =>
    match config.sendTransfer resolvedConfig options with
    | .ok signature' =>
      (.ok signature',
        [CtrlEvent.statePublished AsyncState.loading,
         CtrlEvent.domainInvoked resolvedConfig options,
         CtrlEvent.statePublished (AsyncState.success signature')])
    | .error e =>
      (.error e,
        [CtrlEvent.statePublished AsyncState.loading,
         CtrlEvent.domainInvoked resolvedConfig options,
         CtrlEvent.statePublished (AsyncState.error e)])

/-- Embeds `reset` (lines 90-92): from any current state, set the state back
to the initial one and publish it. -/
def controllerReset (_current : AsyncState String) :
    AsyncState String × List CtrlEvent :=
  (createInitialAsyncState String,
    [CtrlEvent.statePublished (createInitialAsyncState String)])

/-- Characterizes the estimator when every simulation response is `value`:
it returns the numeric reading of `unitsConsumed`, fetching a scratch
blockhash first exactly when the transaction has no lifetime yet. -/
theorem estimateComputeUnits_sim_ok (rpc : Rpc) (k : Nat) (tx : TransactionMessage)
    (v : SimulateValue) (hsim : ∀ s, rpc.simulate s = .ok v) :
    estimateComputeUnits rpc k tx =
      (.ok (unitsConsumedToNumber v.unitsConsumed),
        (if tx.lifetimeConstraint.isSome then k else k + 1),
        (if tx.lifetimeConstraint.isSome then ([] : List Event)
          else [Event.getLatestBlockhashCall]) ++
          [Event.simulateCall (transactionToBase64
            (if tx.lifetimeConstraint.isSome then tx
             else setTransactionMessageLifetimeUsingBlockhash (rpc.blockhashAt k) tx))]) := by
  unfold estimateComputeUnits
  cases h : tx.lifetimeConstraint <;> simp [h, hsim]

/-- Characterizes the estimator when every simulation response is the error
`e`: it falls back to the network maximum when the cause-chain walk finds the
budget-exceeded code and re-throws `e` otherwise. -/
theorem estimateComputeUnits_sim_error (rpc : Rpc) (k : Nat) (tx : TransactionMessage)
    (e : JsError) (hsim : ∀ s, rpc.simulate s = .error e) :
    estimateComputeUnits rpc k tx =
      ((if didExceedComputeBudget e then .ok MAX_COMPUTE_UNIT_LIMIT else .error e),
        (if tx.lifetimeConstraint.isSome then k else k + 1),
        (if tx.lifetimeConstraint.isSome then ([] : List Event)
          else [Event.getLatestBlockhashCall]) ++
          [Event.simulateCall (transactionToBase64
            (if tx.lifetimeConstraint.isSome then tx
             else setTransactionMessageLifetimeUsingBlockhash (rpc.blockhashAt k) tx))]) := by
  unfold estimateComputeUnits
  cases h : tx.lifetimeConstraint <;> cases hd : didExceedComputeBudget e <;>
    simp [h, hd, hsim]

/-- Full characterization of `prepareTransaction` when estimation is
performed and the estimator returns `u`: the compute-budget instruction with
the clamped unit count is appended or spliced in place, the lifetime is
refreshed unless an existing one is kept under `blockhashReset = false`, and
the trace ends with the optional log event on the final message. -/
theorem prepareTransaction_eq_of_estimate_ok
    (cfg : PrepareTransactionConfig) (u k : Nat) (ev : List Event)
    (hcond : ((cfg.transaction.instructions.findIdx? isComputeUnitLimitInstruction).isNone
      || cfg.computeUnitLimitReset.getD false) = true)
    (hest : estimateComputeUnits cfg.rpc 0 cfg.transaction = (.ok u, k, ev)) :
    prepareTransaction cfg =
      (let ix := getSetComputeUnitLimitInstruction (computeUnitsFromEstimate u
        (cfg.computeUnitLimitMultiplier.getD DEFAULT_COMPUTE_UNIT_LIMIT_MULTIPLIER)).toNat
      let instrs := match cfg.transaction.instructions.findIdx? isComputeUnitLimitInstruction with
        | none => cfg.transaction.instructions ++ [ix]
        | some i => cfg.transaction.instructions.set i ix
      let refreshed := (cfg.blockhashReset != some false) ||
        !cfg.transaction.lifetimeConstraint.isSome
      let tx2 : TransactionMessage :=
        { version := cfg.transaction.version
          feePayer := cfg.transaction.feePayer
          instructions := instrs
          lifetimeConstraint :=
            if refreshed then some (cfg.rpc.blockhashAt k)
            else cfg.transaction.lifetimeConstraint }
      (.ok tx2,
        ev ++ (if refreshed then [Event.getLatestBlockhashCall] else []) ++
          (if cfg.logRequest then [Event.logRequestCall (transactionToBase64 tx2)] else []))) := by
  unfold prepareTransaction
  cases hfi : cfg.transaction.instructions.findIdx? isComputeUnitLimitInstruction with
  | none =>
    cases hbr : (cfg.blockhashReset != some false) <;>
      cases hlt : cfg.transaction.lifetimeConstraint <;>
      cases hlr : cfg.logRequest <;>
      simp [hfi, hbr, hlt, hlr, hest, appendTransactionMessageInstruction,
        setTransactionMessageLifetimeUsingBlockhash]
  | some i =>
    have hr : cfg.computeUnitLimitReset.getD false = true := by simpa [hfi] using hcond
    cases hbr : (cfg.blockhashReset != some false) <;>
      cases hlt : cfg.transaction.lifetimeConstraint <;>
      cases hlr : cfg.logRequest <;>
      simp [hfi, hr, hbr, hlt, hlr, hest, appendTransactionMessageInstruction,
        setTransactionMessageLifetimeUsingBlockhash]

/-- Characterization of `prepareTransaction` when estimation is performed and
the estimator throws: the error propagates unchanged, with the events made so
far as the trace and no log event. -/
theorem prepareTransaction_eq_of_estimate_error
    (cfg : PrepareTransactionConfig) (e : JsError) (k : Nat) (ev : List Event)
    (hcond : ((cfg.transaction.instructions.findIdx? isComputeUnitLimitInstruction).isNone
      || cfg.computeUnitLimitReset.getD false) = true)
    (hest : estimateComputeUnits cfg.rpc 0 cfg.transaction = (.error e, k, ev)) :
    prepareTransaction cfg = (.error e, ev) := by
  unfold prepareTransaction
  cases hfi : cfg.transaction.instructions.findIdx? isComputeUnitLimitInstruction with
  | none => simp [hfi, hest]
  | some i =>
    have hr : cfg.computeUnitLimitReset.getD false = true := by simpa [hfi] using hcond
    simp [hfi, hr, hest]

/-- Characterization of `prepareTransaction` when a compute-budget
instruction already exists and no reset is requested: the estimator is never
invoked, the instruction list is returned untouched, and only the lifetime
step and the optional log run. -/
theorem prepareTransaction_eq_of_no_estimation
    (cfg : PrepareTransactionConfig)
    (hcond : ((cfg.transaction.instructions.findIdx? isComputeUnitLimitInstruction).isNone
      || cfg.computeUnitLimitReset.getD false) = false) :
    prepareTransaction cfg =
      (let refreshed := (cfg.blockhashReset != some false) ||
        !cfg.transaction.lifetimeConstraint.isSome
      let tx2 : TransactionMessage :=
        { version := cfg.transaction.version
          feePayer := cfg.transaction.feePayer
          instructions := cfg.transaction.instructions
          lifetimeConstraint :=
            if refreshed then some (cfg.rpc.blockhashAt 0)
            else cfg.transaction.lifetimeConstraint }
      (.ok tx2,
        (if refreshed then [Event.getLatestBlockhashCall] else []) ++
          (if cfg.logRequest then [Event.logRequestCall (transactionToBase64 tx2)] else []))) := by
  obtain ⟨⟨ver, fp, instrs, lt⟩, mult, reset, bhres, logr, rpc⟩ := cfg
  unfold prepareTransaction
  cases hfi : instrs.findIdx? isComputeUnitLimitInstruction with
  | none => rw [hfi] at hcond; simp at hcond
  | some i =>
    have hr : reset.getD false = false := by simpa [hfi] using hcond
    cases hbr : (bhres != some false) <;>
      cases hlt : lt <;>
      cases hlr : logr <;>
      simp [hfi, hr, hbr, hlt, hlr, setTransactionMessageLifetimeUsingBlockhash]

/-- The unit computation of Step A equals the spec's clamp formula: the 1
lower bound is absorbed by the 200000 floor, and a zero estimate's bypass to
the default coincides with clamping a zero ceiling. -/
theorem computeUnitsFromEstimate_eq_clamp (u : Nat) (m : ℚ) :
    computeUnitsFromEstimate u m =
      min (1400000 : Int) (max 200000 ⌈(u : ℚ) * m⌉) := by
  unfold computeUnitsFromEstimate
  simp only [DEFAULT_COMPUTE_UNIT_LIMIT, MAX_COMPUTE_UNIT_LIMIT]
  by_cases h : u = 0
  · subst h; norm_num
  · simp only [h, ne_eq, not_false_iff, if_true]
    omega

/-- When estimation runs and yields `u`, the prepared message contains the
compute-budget instruction carrying the computed unit count (appended at the
end, or spliced over the first existing compute-budget instruction). -/
theorem prepare_mem_units (cfg : PrepareTransactionConfig) (u k : Nat) (ev : List Event)
    (hcondb : ((cfg.transaction.instructions.findIdx? isComputeUnitLimitInstruction).isNone
      || cfg.computeUnitLimitReset.getD false) = true)
    (hest : estimateComputeUnits cfg.rpc 0 cfg.transaction = (.ok u, k, ev)) :
    ∀ X, (computeUnitsFromEstimate u
        (cfg.computeUnitLimitMultiplier.getD DEFAULT_COMPUTE_UNIT_LIMIT_MULTIPLIER)).toNat = X →
      ∃ tx', (prepareTransaction cfg).1 = .ok tx' ∧
        getSetComputeUnitLimitInstruction X ∈ tx'.instructions := by
  intro X hX
  rw [prepareTransaction_eq_of_estimate_ok cfg u k ev hcondb hest]
  refine ⟨_, rfl, ?_⟩
  rw [← hX]
  rcases hfi : cfg.transaction.instructions.findIdx? isComputeUnitLimitInstruction with _ | i
  · simp
  · obtain ⟨hlen, -, -⟩ := List.findIdx?_eq_some_iff_getElem.mp hfi
    simp only
    refine List.mem_iff_getElem.mpr ⟨i, by simpa using hlen, ?_⟩
    exact List.getElem_set_self _

/-- C1: whenever `prepare` performs estimation (no compute-budget instruction
present, or reset requested) and simulation reports `u` units, the declared
unit count of the resulting compute-budget instruction is exactly
`clamp(ceil(u × m), 200000, 1400000)`; in particular a zero estimate or any
product below the floor yields exactly 200000, and a product above the
ceiling yields exactly 1400000. -/
theorem claim_C1_clamped_units (cfg : PrepareTransactionConfig) (v : SimulateValue)
    (hsim : ∀ s, cfg.rpc.simulate s = .ok v)
    (hcond : cfg.transaction.instructions.findIdx? isComputeUnitLimitInstruction = none
      ∨ cfg.computeUnitLimitReset = some true) :
    ∃ tx', (prepareTransaction cfg).1 = .ok tx' ∧
      getSetComputeUnitLimitInstruction (Int.toNat (min 1400000 (max 200000
        ⌈(unitsConsumedToNumber v.unitsConsumed : ℚ) *
          cfg.computeUnitLimitMultiplier.getD DEFAULT_COMPUTE_UNIT_LIMIT_MULTIPLIER⌉)))
        ∈ tx'.instructions ∧
      (unitsConsumedToNumber v.unitsConsumed = 0 →
        getSetComputeUnitLimitInstruction 200000 ∈ tx'.instructions) ∧
      (⌈(unitsConsumedToNumber v.unitsConsumed : ℚ) *
          cfg.computeUnitLimitMultiplier.getD DEFAULT_COMPUTE_UNIT_LIMIT_MULTIPLIER⌉ < 200000 →
        getSetComputeUnitLimitInstruction 200000 ∈ tx'.instructions) ∧
      ((1400000 : Int) < ⌈(unitsConsumedToNumber v.unitsConsumed : ℚ) *
          cfg.computeUnitLimitMultiplier.getD DEFAULT_COMPUTE_UNIT_LIMIT_MULTIPLIER⌉ →
        getSetComputeUnitLimitInstruction 1400000 ∈ tx'.instructions) := by
  have hcondb : ((cfg.transaction.instructions.findIdx? isComputeUnitLimitInstruction).isNone
      || cfg.computeUnitLimitReset.getD false) = true := by
    rcases hcond with h | h <;> simp [h]
  have hmem := prepare_mem_units cfg
    (unitsConsumedToNumber v.unitsConsumed) _ _ hcondb
    (estimateComputeUnits_sim_ok cfg.rpc 0 cfg.transaction v hsim)
  set u := unitsConsumedToNumber v.unitsConsumed with hu
  set m := cfg.computeUnitLimitMultiplier.getD DEFAULT_COMPUTE_UNIT_LIMIT_MULTIPLIER with hm
  obtain ⟨tx', h1, h2⟩ := hmem _ (by rw [computeUnitsFromEstimate_eq_clamp])
  refine ⟨tx', h1, h2, ?_, ?_, ?_⟩
  · intro h0
    obtain ⟨tx'', h1', h2'⟩ := hmem 200000 (by
      rw [computeUnitsFromEstimate_eq_clamp, h0]
      simp)
    rw [h1] at h1'
    cases h1'
    exact h2'
  · intro hlow
    obtain ⟨tx'', h1', h2'⟩ := hmem 200000 (by
      rw [computeUnitsFromEstimate_eq_clamp]
      omega)
    rw [h1] at h1'
    cases h1'
    exact h2'
  · intro hhigh
    obtain ⟨tx'', h1', h2'⟩ := hmem 1400000 (by
      rw [computeUnitsFromEstimate_eq_clamp]
      omega)
    rw [h1] at h1'
    cases h1'
    exact h2'

/-- C1 witness: a concrete estimation run whose zero estimate floors to the
200000 default. -/
theorem claim_C1_clamped_units_witness :
    ∃ tx',
      (prepareTransaction
        { transaction :=
            { version := 0, feePayer := "payer", instructions := [],
              lifetimeConstraint := some { blockhash := "abc", lastValidBlockHeight := 123 } }
          rpc :=
            { blockhashAt := fun _ => { blockhash := "abc", lastValidBlockHeight := 123 }
              simulate := fun _ => .ok { unitsConsumed := SimUnits.numeric 0 } } }).1 =
        .ok tx' ∧
      getSetComputeUnitLimitInstruction 200000 ∈ tx'.instructions := by
  obtain ⟨tx', h1, -, h0, -, -⟩ := claim_C1_clamped_units
    { transaction :=
        { version := 0, feePayer := "payer", instructions := [],
          lifetimeConstraint := some { blockhash := "abc", lastValidBlockHeight := 123 } }
      rpc :=
        { blockhashAt := fun _ => { blockhash := "abc", lastValidBlockHeight := 123 }
          simulate := fun _ => .ok { unitsConsumed := SimUnits.numeric 0 } } }
    { unitsConsumed := SimUnits.numeric 0 } (fun _ => rfl) (Or.inl rfl)
  exact ⟨tx', h1, h0 rfl⟩

/-- C9: on every successful simulation the estimator returns the numeric
reading of `unitsConsumed`, which is never negative, with an absent
(null/undefined) or non-numeric value read as 0; a zero estimate then clamps
to the 200000 default in `prepare`'s unit computation, whatever the
multiplier. -/
theorem claim_C9_estimator_nonnegative (rpc : Rpc) (k : Nat)
    (tx : TransactionMessage) (v : SimulateValue)
    (hsim : ∀ s, rpc.simulate s = .ok v) :
    (estimateComputeUnits rpc k tx).1 = .ok (unitsConsumedToNumber v.unitsConsumed) ∧
    (0 : Int) ≤ (unitsConsumedToNumber v.unitsConsumed : Int) ∧
    (v.unitsConsumed = SimUnits.missing ∨ v.unitsConsumed = SimUnits.nonNumeric →
      unitsConsumedToNumber v.unitsConsumed = 0) ∧
    (∀ m : ℚ, computeUnitsFromEstimate 0 m = 200000) := by
  refine ⟨?_, Int.ofNat_nonneg _, ?_, ?_⟩
  · rw [estimateComputeUnits_sim_ok rpc k tx v hsim]
  · rintro (h | h) <;> simp [h, unitsConsumedToNumber]
  · intro m
    rw [computeUnitsFromEstimate_eq_clamp]
    simp

/-- C9 witness: a simulation response with an absent `unitsConsumed` is read
as 0 by the estimator. -/
theorem claim_C9_estimator_nonnegative_witness :
    (estimateComputeUnits
      { blockhashAt := fun _ => { blockhash := "abc", lastValidBlockHeight := 123 }
        simulate := fun _ => .ok { unitsConsumed := SimUnits.missing } } 0
      { version := 0, feePayer := "payer", instructions := [],
        lifetimeConstraint := none }).1 = .ok 0 :=
  (claim_C9_estimator_nonnegative
    { blockhashAt := fun _ => { blockhash := "abc", lastValidBlockHeight := 123 }
      simulate := fun _ => .ok { unitsConsumed := SimUnits.missing } } 0
    { version := 0, feePayer := "payer", instructions := [],
      lifetimeConstraint := none }
    { unitsConsumed := SimUnits.missing } (fun _ => rfl)).1

/-- C3: when the transaction already contains a compute-budget instruction
and `computeUnitLimitReset` is unset or false, `prepare` resolves without
ever calling `simulateTransaction`, and the returned message differs from the
input at most in its `lifetimeConstraint`. -/
theorem claim_C3_idempotent_noop (cfg : PrepareTransactionConfig)
    (hhas : (cfg.transaction.instructions.findIdx? isComputeUnitLimitInstruction).isSome = true)
    (hreset : cfg.computeUnitLimitReset = none ∨ cfg.computeUnitLimitReset = some false) :
    ∃ tx', (prepareTransaction cfg).1 = .ok tx' ∧
      tx'.instructions = cfg.transaction.instructions ∧
      tx'.feePayer = cfg.transaction.feePayer ∧
      tx'.version = cfg.transaction.version ∧
      ∀ e ∈ (prepareTransaction cfg).2, e.isSimulateCall = false := by
  have hcond : ((cfg.transaction.instructions.findIdx? isComputeUnitLimitInstruction).isNone
      || cfg.computeUnitLimitReset.getD false) = false := by
    rcases hreset with h | h <;> simp [h, Option.isNone_iff_eq_none] <;>
      simp_all [Option.isSome_iff_ne_none]
  rw [prepareTransaction_eq_of_no_estimation cfg hcond]
  refine ⟨_, rfl, rfl, rfl, rfl, ?_⟩
  intro e he
  simp only [List.mem_append] at he
  rcases he with he | he
  · split at he <;> simp_all [Event.isSimulateCall]
  · split at he <;> simp_all [Event.isSimulateCall]

/-- C3 witness: a transaction carrying a compute-budget instruction, prepared
with reset unset, against an RPC whose simulation would fail — `prepare`
still resolves and the instruction list is unchanged. -/
theorem claim_C3_idempotent_noop_witness :
    ∃ tx',
      (prepareTransaction
        { transaction :=
            { version := 0, feePayer := "payer",
              instructions := [getSetComputeUnitLimitInstruction 100000],
              lifetimeConstraint := some { blockhash := "abc", lastValidBlockHeight := 123 } }
          rpc :=
            { blockhashAt := fun _ => { blockhash := "def", lastValidBlockHeight := 456 }
              simulate := fun _ => .error [ErrorLink.plainLink "network down"] } }).1 =
        .ok tx' ∧
      tx'.instructions = [getSetComputeUnitLimitInstruction 100000] := by
  obtain ⟨tx', h1, h2, -, -, -⟩ := claim_C3_idempotent_noop
    { transaction :=
        { version := 0, feePayer := "payer",
          instructions := [getSetComputeUnitLimitInstruction 100000],
          lifetimeConstraint := some { blockhash := "abc", lastValidBlockHeight := 123 } }
      rpc :=
        { blockhashAt := fun _ => { blockhash := "def", lastValidBlockHeight := 456 }
          simulate := fun _ => .error [ErrorLink.plainLink "network down"] } }
    (by decide) (Or.inl rfl)
  exact ⟨tx', h1, h2⟩

/-- C4: with `computeUnitLimitReset = true` and a (unique, per the data-model
invariant: first) compute-budget instruction at index `i`, `prepare` splices
the new instruction into index `i`: the list keeps its length, index `i`
holds the new compute-budget instruction, and every other index is
unchanged. -/
theorem claim_C4_replace_in_place (cfg : PrepareTransactionConfig) (v : SimulateValue)
    (i : Nat) (hsim : ∀ s, cfg.rpc.simulate s = .ok v)
    (hreset : cfg.computeUnitLimitReset = some true)
    (hlen : i < cfg.transaction.instructions.length)
    (hcb : isComputeUnitLimitInstruction (cfg.transaction.instructions[i]) = true)
    (hfirst : ∀ j (hj : j < i),
      isComputeUnitLimitInstruction
        (cfg.transaction.instructions.get ⟨j, hj.trans hlen⟩) = false) :
    ∃ tx', (prepareTransaction cfg).1 = .ok tx' ∧
      tx'.instructions.length = cfg.transaction.instructions.length ∧
      tx'.instructions[i]? = some (getSetComputeUnitLimitInstruction
        (computeUnitsFromEstimate (unitsConsumedToNumber v.unitsConsumed)
          (cfg.computeUnitLimitMultiplier.getD DEFAULT_COMPUTE_UNIT_LIMIT_MULTIPLIER)).toNat) ∧
      ∀ j, j ≠ i → tx'.instructions[j]? = cfg.transaction.instructions[j]? := by
  have hfi : cfg.transaction.instructions.findIdx? isComputeUnitLimitInstruction = some i :=
    List.findIdx?_eq_some_iff_getElem.mpr
      ⟨hlen, hcb, fun j hj => by simpa using hfirst j hj⟩
  have hcondb : ((cfg.transaction.instructions.findIdx? isComputeUnitLimitInstruction).isNone
      || cfg.computeUnitLimitReset.getD false) = true := by simp [hreset]
  rw [prepareTransaction_eq_of_estimate_ok cfg
    (unitsConsumedToNumber v.unitsConsumed) _ _ hcondb
    (estimateComputeUnits_sim_ok cfg.rpc 0 cfg.transaction v hsim)]
  refine ⟨_, rfl, ?_, ?_, ?_⟩ <;> simp only [hfi]
  · exact List.length_set ..
  · rw [List.getElem?_set_self' ]
    simp [List.getElem?_eq_getElem hlen]
  · intro j hj
    exact List.getElem?_set_ne hj.symm

/-- C4 witness: `[A, ComputeBudget(100000), B]` with reset becomes
`[A, ComputeBudget(new), B]` — same index, same length, neighbours intact. -/
theorem claim_C4_replace_in_place_witness :
    ∃ tx',
      (prepareTransaction
        { transaction :=
            { version := 0, feePayer := "payer",
              instructions :=
                [{ programAddress := "progA", accounts := [], data := [1] },
                 getSetComputeUnitLimitInstruction 100000,
                 { programAddress := "progB", accounts := [], data := [7] }],
              lifetimeConstraint := some { blockhash := "abc", lastValidBlockHeight := 123 } }
          computeUnitLimitReset := some true
          rpc :=
            { blockhashAt := fun _ => { blockhash := "abc", lastValidBlockHeight := 123 }
              simulate := fun _ => .ok { unitsConsumed := SimUnits.numeric 500000 } } }).1 =
        .ok tx' ∧
      tx'.instructions.length = 3 ∧
      tx'.instructions[1]? = some (getSetComputeUnitLimitInstruction
        (computeUnitsFromEstimate 500000 DEFAULT_COMPUTE_UNIT_LIMIT_MULTIPLIER).toNat) ∧
      tx'.instructions[0]? = some { programAddress := "progA", accounts := [], data := [1] } ∧
      tx'.instructions[2]? = some { programAddress := "progB", accounts := [], data := [7] } := by
  obtain ⟨tx', h1, h2, h3, h4⟩ := claim_C4_replace_in_place
    { transaction :=
        { version := 0, feePayer := "payer",
          instructions :=
            [{ programAddress := "progA", accounts := [], data := [1] },
             getSetComputeUnitLimitInstruction 100000,
             { programAddress := "progB", accounts := [], data := [7] }],
          lifetimeConstraint := some { blockhash := "abc", lastValidBlockHeight := 123 } }
      computeUnitLimitReset := some true
      rpc :=
        { blockhashAt := fun _ => { blockhash := "abc", lastValidBlockHeight := 123 }
          simulate := fun _ => .ok { unitsConsumed := SimUnits.numeric 500000 } } }
    { unitsConsumed := SimUnits.numeric 500000 } 1 (fun _ => rfl) rfl
    (by decide) (by decide) (by decide)
  exact ⟨tx', h1, h2, h3, h4 0 (by decide), h4 2 (by decide)⟩

/-- Lifetime behaviour of a successful `prepare` run against a blockhash
oracle that always answers `fresh`: the output constraint is `fresh` exactly
when Step B refreshes (no constraint yet, or reset not explicitly false), a
refresh makes a `getLatestBlockhash` call observable, and a kept constraint
makes none anywhere in the run. -/
theorem prepare_lifetime_char (cfg : PrepareTransactionConfig) (v : SimulateValue)
    (fresh : Blockhash) (hsim : ∀ s, cfg.rpc.simulate s = .ok v)
    (hbh : ∀ k, cfg.rpc.blockhashAt k = fresh) :
    ∃ tx', (prepareTransaction cfg).1 = .ok tx' ∧
      tx'.lifetimeConstraint =
        (if (cfg.blockhashReset != some false) || !cfg.transaction.lifetimeConstraint.isSome
         then some fresh else cfg.transaction.lifetimeConstraint) ∧
      (((cfg.blockhashReset != some false) || !cfg.transaction.lifetimeConstraint.isSome) = true →
        Event.getLatestBlockhashCall ∈ (prepareTransaction cfg).2) ∧
      ((cfg.blockhashReset != some false) = false ∧
          cfg.transaction.lifetimeConstraint.isSome = true →
        ∀ e ∈ (prepareTransaction cfg).2, e.isGetLatestBlockhashCall = false) := by
  cases hc : ((cfg.transaction.instructions.findIdx? isComputeUnitLimitInstruction).isNone
      || cfg.computeUnitLimitReset.getD false) with
  | true =>
    rw [prepareTransaction_eq_of_estimate_ok cfg
      (unitsConsumedToNumber v.unitsConsumed) _ _ hc
      (estimateComputeUnits_sim_ok cfg.rpc 0 cfg.transaction v hsim)]
    cases hbr : (cfg.blockhashReset != some false) <;>
      cases hlt : cfg.transaction.lifetimeConstraint <;>
      cases hlr : cfg.logRequest <;>
      refine ⟨_, rfl, ?_, ?_, ?_⟩ <;>
      simp [hbr, hlt, hlr, hbh, Event.isGetLatestBlockhashCall, List.mem_append,
        List.forall_mem_cons]
  | false =>
    rw [prepareTransaction_eq_of_no_estimation cfg hc]
    cases hbr : (cfg.blockhashReset != some false) <;>
      cases hlt : cfg.transaction.lifetimeConstraint <;>
      cases hlr : cfg.logRequest <;>
      refine ⟨_, rfl, ?_, ?_, ?_⟩ <;>
      simp [hbr, hlt, hlr, hbh, Event.isGetLatestBlockhashCall, List.mem_append,
        List.forall_mem_cons]

/-- C5: Step B case analysis.  With no lifetime constraint, `prepare` fetches
the latest blockhash and binds it; with an existing constraint and
`blockhashReset` not explicitly false, the constraint is replaced by the
freshly fetched value (and the fetch is observable); with `blockhashReset =
false`, the stale constraint is returned untouched and no blockhash fetch
happens anywhere in the run; in every case the returned message carries a
lifetime constraint. -/
theorem claim_C5_lifetime_cases (cfg : PrepareTransactionConfig) (v : SimulateValue)
    (fresh : Blockhash) (hsim : ∀ s, cfg.rpc.simulate s = .ok v)
    (hbh : ∀ k, cfg.rpc.blockhashAt k = fresh) :
    (cfg.transaction.lifetimeConstraint = none →
      ∃ tx', (prepareTransaction cfg).1 = .ok tx' ∧
        tx'.lifetimeConstraint = some fresh ∧
        Event.getLatestBlockhashCall ∈ (prepareTransaction cfg).2) ∧
    (∀ stale, cfg.transaction.lifetimeConstraint = some stale →
      cfg.blockhashReset ≠ some false →
      ∃ tx', (prepareTransaction cfg).1 = .ok tx' ∧
        tx'.lifetimeConstraint = some fresh ∧
        Event.getLatestBlockhashCall ∈ (prepareTransaction cfg).2) ∧
    (∀ stale, cfg.transaction.lifetimeConstraint = some stale →
      cfg.blockhashReset = some false →
      ∃ tx', (prepareTransaction cfg).1 = .ok tx' ∧
        tx'.lifetimeConstraint = some stale ∧
        ∀ e ∈ (prepareTransaction cfg).2, e.isGetLatestBlockhashCall = false) ∧
    (∀ tx', (prepareTransaction cfg).1 = .ok tx' →
      tx'.lifetimeConstraint.isSome = true) := by
  obtain ⟨tx', h1, hL, hmem, hnone⟩ := prepare_lifetime_char cfg v fresh hsim hbh
  refine ⟨?_, ?_, ?_, ?_⟩
  · intro h0
    refine ⟨tx', h1, ?_, hmem (by simp [h0])⟩
    rw [hL]; simp [h0]
  · intro stale hst hne
    have hb : (cfg.blockhashReset != some false) = true := by
      simpa [bne_iff_ne] using hne
    refine ⟨tx', h1, ?_, hmem (by simp [hb])⟩
    rw [hL]; simp [hb]
  · intro stale hst heq
    have hb : (cfg.blockhashReset != some false) = false := by simp [heq]
    refine ⟨tx', h1, ?_, hnone ⟨hb, by simp [hst]⟩⟩
    rw [hL]; simp [hb, hst]
  · intro tx'' h2
    have : tx'' = tx' := by
      rw [h1] at h2; exact (Except.ok.injEq _ _).mp h2.symm
    subst this
    rw [hL]
    cases hbr : (cfg.blockhashReset != some false) <;>
      cases hlt : cfg.transaction.lifetimeConstraint <;> simp

/-- C5 witness: a stale constraint with `blockhashReset` unspecified is
replaced by the freshly fetched blockhash. -/
theorem claim_C5_lifetime_cases_witness :
    ∃ tx',
      (prepareTransaction
        { transaction :=
            { version := 0, feePayer := "payer", instructions := [],
              lifetimeConstraint := some { blockhash := "stale", lastValidBlockHeight := 1 } }
          rpc :=
            { blockhashAt := fun _ => { blockhash := "fresh", lastValidBlockHeight := 999 }
              simulate := fun _ => .ok { unitsConsumed := SimUnits.numeric 300000 } } }).1 =
        .ok tx' ∧
      tx'.lifetimeConstraint = some { blockhash := "fresh", lastValidBlockHeight := 999 } := by
  obtain ⟨-, h2, -, -⟩ := claim_C5_lifetime_cases
    { transaction :=
        { version := 0, feePayer := "payer", instructions := [],
          lifetimeConstraint := some { blockhash := "stale", lastValidBlockHeight := 1 } }
      rpc :=
        { blockhashAt := fun _ => { blockhash := "fresh", lastValidBlockHeight := 999 }
          simulate := fun _ => .ok { unitsConsumed := SimUnits.numeric 300000 } } }
    { unitsConsumed := SimUnits.numeric 300000 }
    { blockhash := "fresh", lastValidBlockHeight := 999 }
    (fun _ => rfl) (fun _ => rfl)
  obtain ⟨tx', h1, hfresh, -⟩ :=
    h2 { blockhash := "stale", lastValidBlockHeight := 1 } rfl (by simp)
  exact ⟨tx', h1, hfresh⟩

/-- C8: on a completing `prepare` run with a `logRequest` callback supplied,
the callback is invoked exactly once, strictly after every other observable
effect of the run, with the base64 wire encoding of the exact message that
`prepare` returns; with no callback supplied it is never invoked. -/
theorem claim_C8_log_request_once (cfg : PrepareTransactionConfig) (v : SimulateValue)
    (hsim : ∀ s, cfg.rpc.simulate s = .ok v) :
    (cfg.logRequest = true →
      ∃ tx', (prepareTransaction cfg).1 = .ok tx' ∧
        (prepareTransaction cfg).2.filter Event.isLogRequestCall =
          [Event.logRequestCall (transactionToBase64 tx')] ∧
        (prepareTransaction cfg).2.getLast? =
          some (Event.logRequestCall (transactionToBase64 tx'))) ∧
    (cfg.logRequest = false →
      ∀ e ∈ (prepareTransaction cfg).2, e.isLogRequestCall = false) := by
  cases hc : ((cfg.transaction.instructions.findIdx? isComputeUnitLimitInstruction).isNone
      || cfg.computeUnitLimitReset.getD false) with
  | true =>
    rw [prepareTransaction_eq_of_estimate_ok cfg
      (unitsConsumedToNumber v.unitsConsumed) _ _ hc
      (estimateComputeUnits_sim_ok cfg.rpc 0 cfg.transaction v hsim)]
    constructor
    · intro hlr
      refine ⟨_, rfl, ?_, ?_⟩ <;>
        cases hlt : cfg.transaction.lifetimeConstraint <;>
        cases hbr : (cfg.blockhashReset != some false) <;>
        simp [hlr, hlt, hbr, List.filter_append, List.getLast?_append,
          Event.isLogRequestCall]
    · intro hlr
      cases hlt : cfg.transaction.lifetimeConstraint <;>
        cases hbr : (cfg.blockhashReset != some false) <;>
        simp [hlr, hlt, hbr, List.mem_append, List.forall_mem_cons,
          Event.isLogRequestCall]
  | false =>
    rw [prepareTransaction_eq_of_no_estimation cfg hc]
    constructor
    · intro hlr
      refine ⟨_, rfl, ?_, ?_⟩ <;>
        cases hlt : cfg.transaction.lifetimeConstraint <;>
        cases hbr : (cfg.blockhashReset != some false) <;>
        simp [hlr, hlt, hbr, List.filter_append, List.getLast?_append,
          Event.isLogRequestCall]
    · intro hlr
      cases hlt : cfg.transaction.lifetimeConstraint <;>
        cases hbr : (cfg.blockhashReset != some false) <;>
        simp [hlr, hlt, hbr, List.mem_append, List.forall_mem_cons,
          Event.isLogRequestCall]

/-- C8 witness: a concrete run with the callback supplied logs the returned
message exactly once, at the end of the trace. -/
theorem claim_C8_log_request_once_witness :
    ∃ tx',
      (prepareTransaction
        { transaction :=
            { version := 0, feePayer := "payer", instructions := [],
              lifetimeConstraint := some { blockhash := "abc", lastValidBlockHeight := 123 } }
          logRequest := true
          rpc :=
            { blockhashAt := fun _ => { blockhash := "abc", lastValidBlockHeight := 123 }
              simulate := fun _ => .ok { unitsConsumed := SimUnits.numeric 250000 } } }).1 =
        .ok tx' ∧
      (prepareTransaction
        { transaction :=
            { version := 0, feePayer := "payer", instructions := [],
              lifetimeConstraint := some { blockhash := "abc", lastValidBlockHeight := 123 } }
          logRequest := true
          rpc :=
            { blockhashAt := fun _ => { blockhash := "abc", lastValidBlockHeight := 123 }
              simulate := fun _ => .ok { unitsConsumed := SimUnits.numeric 250000 } } }).2.filter
          Event.isLogRequestCall =
        [Event.logRequestCall (transactionToBase64 tx')] ∧
      (prepareTransaction
        { transaction :=
            { version := 0, feePayer := "payer", instructions := [],
              lifetimeConstraint := some { blockhash := "abc", lastValidBlockHeight := 123 } }
          logRequest := true
          rpc :=
            { blockhashAt := fun _ => { blockhash := "abc", lastValidBlockHeight := 123 }
              simulate := fun _ => .ok { unitsConsumed := SimUnits.numeric 250000 } } }).2.getLast? =
        some (Event.logRequestCall (transactionToBase64 tx')) :=
  (claim_C8_log_request_once
    { transaction :=
        { version := 0, feePayer := "payer", instructions := [],
          lifetimeConstraint := some { blockhash := "abc", lastValidBlockHeight := 123 } }
      logRequest := true
      rpc :=
        { blockhashAt := fun _ => { blockhash := "abc", lastValidBlockHeight := 123 }
          simulate := fun _ => .ok { unitsConsumed := SimUnits.numeric 250000 } } }
    { unitsConsumed := SimUnits.numeric 250000 } (fun _ => rfl)).1 rfl

/-- The claim's notion of "present at any depth in the cause chain": the
budget-exceeded code occurs anywhere in the chain, regardless of the kinds of
the links above it. -/
def causeChainContainsBudgetExceeded : JsError → Bool
  | [] => false
  | ErrorLink.solanaLink code :: rest =>
    code == COMPUTATIONAL_BUDGET_EXCEEDED_CODE || causeChainContainsBudgetExceeded rest
  | ErrorLink.plainLink _ :: rest => causeChainContainsBudgetExceeded rest

/-- The code's walk only ever reports kinds reachable through an unbroken
prefix of Solana errors, so a positive walk implies the kind is in the
chain. -/
theorem causeChain_of_didExceed (e : JsError) (h : didExceedComputeBudget e = true) :
    causeChainContainsBudgetExceeded e = true := by
  induction e with
  | nil => simp [didExceedComputeBudget] at h
  | cons hd tl ih =>
    cases hd with
    | solanaLink code =>
      by_cases hc : (code == COMPUTATIONAL_BUDGET_EXCEEDED_CODE) = true
      · simp [causeChainContainsBudgetExceeded, hc]
      · simp only [didExceedComputeBudget, hc, if_false,
          Bool.not_eq_true] at h
        simp only [Bool.not_eq_true] at hc
        simp [causeChainContainsBudgetExceeded, hc, ih h]
    | plainLink msg => simp [didExceedComputeBudget] at h

/-- C2 counterexample: an error whose cause chain contains the
budget-exceeded kind at depth 1 — but behind a non-Solana wrapper — makes
`prepare` reject instead of resolving with the maximum limit: the code's walk
stops at the first link that is not a Solana error. -/
theorem claim_C2_counterexample :
    causeChainContainsBudgetExceeded
      [ErrorLink.plainLink "rpc failure",
       ErrorLink.solanaLink COMPUTATIONAL_BUDGET_EXCEEDED_CODE] = true ∧
    didExceedComputeBudget
      [ErrorLink.plainLink "rpc failure",
       ErrorLink.solanaLink COMPUTATIONAL_BUDGET_EXCEEDED_CODE] = false ∧
    (prepareTransaction
      { transaction :=
          { version := 0, feePayer := "payer", instructions := [],
            lifetimeConstraint := some { blockhash := "abc", lastValidBlockHeight := 123 } }
        rpc :=
          { blockhashAt := fun _ => { blockhash := "abc", lastValidBlockHeight := 123 }
            simulate := fun _ => .error
              [ErrorLink.plainLink "rpc failure",
               ErrorLink.solanaLink COMPUTATIONAL_BUDGET_EXCEEDED_CODE] } }).1 =
      .error [ErrorLink.plainLink "rpc failure",
              ErrorLink.solanaLink COMPUTATIONAL_BUDGET_EXCEEDED_CODE] :=
  ⟨by decide, by decide, rfl⟩

/-- C2 amended: with the default multiplier, if the walk of the cause chain
through consecutive Solana errors finds the budget-exceeded kind, the
estimator returns the 1400000 network maximum, `prepare` resolves, and the
resulting compute-budget instruction declares exactly 1400000 units; if the
walk does not find it (even when the kind sits deeper behind a non-Solana
link), the error propagates unchanged; and a positive walk always means the
kind is in the chain. -/
theorem claim_C2_amended_budget_fallback (cfg : PrepareTransactionConfig) (e : JsError)
    (hsim : ∀ s, cfg.rpc.simulate s = .error e)
    (hcond : cfg.transaction.instructions.findIdx? isComputeUnitLimitInstruction = none
      ∨ cfg.computeUnitLimitReset = some true)
    (hmult : cfg.computeUnitLimitMultiplier = none) :
    (didExceedComputeBudget e = true →
      (estimateComputeUnits cfg.rpc 0 cfg.transaction).1 = .ok MAX_COMPUTE_UNIT_LIMIT ∧
      ∃ tx', (prepareTransaction cfg).1 = .ok tx' ∧
        getSetComputeUnitLimitInstruction 1400000 ∈ tx'.instructions) ∧
    (didExceedComputeBudget e = false →
      (prepareTransaction cfg).1 = .error e) ∧
    (didExceedComputeBudget e = true →
      causeChainContainsBudgetExceeded e = true) := by
  have hcondb : ((cfg.transaction.instructions.findIdx? isComputeUnitLimitInstruction).isNone
      || cfg.computeUnitLimitReset.getD false) = true := by
    rcases hcond with h | h <;> simp [h]
  have hestE := estimateComputeUnits_sim_error cfg.rpc 0 cfg.transaction e hsim
  rcases hE : estimateComputeUnits cfg.rpc 0 cfg.transaction with ⟨r, k, ev⟩
  rw [hE] at hestE
  have hr : r = if didExceedComputeBudget e then .ok MAX_COMPUTE_UNIT_LIMIT else .error e := by
    exact congrArg (·.1) hestE
  refine ⟨fun hd => ?_, fun hd => ?_, fun hd => causeChain_of_didExceed e hd⟩
  · have hr' : r = .ok MAX_COMPUTE_UNIT_LIMIT := by simp [hd] at hr; exact hr
    refine ⟨by simp [hr'], ?_⟩
    refine prepare_mem_units cfg MAX_COMPUTE_UNIT_LIMIT k ev hcondb
      (by rw [hE, hr']) 1400000 ?_
    rw [computeUnitsFromEstimate_eq_clamp, hmult]
    have hceil : ⌈(MAX_COMPUTE_UNIT_LIMIT : ℚ) * DEFAULT_COMPUTE_UNIT_LIMIT_MULTIPLIER⌉ =
        (1540000 : Int) := by
      rw [show ((MAX_COMPUTE_UNIT_LIMIT : ℚ) * DEFAULT_COMPUTE_UNIT_LIMIT_MULTIPLIER) =
        ((1540000 : ℤ) : ℚ) by norm_num [MAX_COMPUTE_UNIT_LIMIT,
          DEFAULT_COMPUTE_UNIT_LIMIT_MULTIPLIER], Int.ceil_intCast]
    simp only [Option.getD]
    rw [hceil]
    decide
  · have hr' : r = .error e := by simp [hd] at hr; exact hr
    rw [prepareTransaction_eq_of_estimate_error cfg e k ev hcondb (by rw [hE, hr'])]

/-- C2 amended witness: a direct budget-exceeded Solana error makes `prepare`
resolve with a 1400000-unit compute-budget instruction. -/
theorem claim_C2_amended_budget_fallback_witness :
    ∃ tx',
      (prepareTransaction
        { transaction :=
            { version := 0, feePayer := "payer", instructions := [],
              lifetimeConstraint := some { blockhash := "abc", lastValidBlockHeight := 123 } }
          rpc :=
            { blockhashAt := fun _ => { blockhash := "abc", lastValidBlockHeight := 123 }
              simulate := fun _ => .error
                [ErrorLink.solanaLink COMPUTATIONAL_BUDGET_EXCEEDED_CODE] } }).1 =
        .ok tx' ∧
      getSetComputeUnitLimitInstruction 1400000 ∈ tx'.instructions :=
  ((claim_C2_amended_budget_fallback
    { transaction :=
        { version := 0, feePayer := "payer", instructions := [],
          lifetimeConstraint := some { blockhash := "abc", lastValidBlockHeight := 123 } }
      rpc :=
        { blockhashAt := fun _ => { blockhash := "abc", lastValidBlockHeight := 123 }
          simulate := fun _ => .error
            [ErrorLink.solanaLink COMPUTATIONAL_BUDGET_EXCEEDED_CODE] } }
    [ErrorLink.solanaLink COMPUTATIONAL_BUDGET_EXCEEDED_CODE]
    (fun _ => rfl) (Or.inl rfl) rfl).1 (by decide)).2

/-- C6: when the required inputs resolve, a successful `send` publishes
exactly `loading` then `success` carrying the returned value; a failing
`send` publishes exactly `loading` then `error` carrying the thrown error and
re-throws that same error; `reset` unconditionally publishes `idle` from any
state. -/
theorem claim_C6_controller_state_sequence (c : SplTransferControllerConfig)
    (input : SplTransferInput) (options : Option String)
    (resolved : SplTransferPrepareConfig)
    (hresolve : ensureTransferConfig input
      (if input.authority.isSome then none else c.authorityProvider)
      (if input.sourceOwner.isSome then none else c.sourceOwnerProvider) = .ok resolved) :
    (∀ sig, c.sendTransfer resolved options = .ok sig →
      (controllerSend c input options).1 = .ok sig ∧
      publishedStates (controllerSend c input options).2 =
        [AsyncState.loading, AsyncState.success sig]) ∧
    (∀ e, c.sendTransfer resolved options = .error e →
      (controllerSend c input options).1 = .error e ∧
      publishedStates (controllerSend c input options).2 =
        [AsyncState.loading, AsyncState.error e]) ∧
    (∀ s, controllerReset s =
      (AsyncState.idle, [CtrlEvent.statePublished AsyncState.idle])) := by
  refine ⟨fun sig hsig => ?_, fun e he => ?_, fun s => rfl⟩
  · simp [controllerSend, hresolve, hsig, publishedStates]
  · simp [controllerSend, hresolve, he, publishedStates]

/-- C6 witness: a concrete controller whose inputs resolve, exercised on the
success branch. -/
theorem claim_C6_controller_state_sequence_witness :
    (controllerSend
      { authorityProvider := none
        sendTransfer := fun _ _ => .ok "sig-1"
        sourceOwnerProvider := none }
      { amount := 1, destinationOwner := "dest",
        authority := some "auth", sourceOwner := some "owner" } none).1 = .ok "sig-1" ∧
    publishedStates (controllerSend
      { authorityProvider := none
        sendTransfer := fun _ _ => .ok "sig-1"
        sourceOwnerProvider := none }
      { amount := 1, destinationOwner := "dest",
        authority := some "auth", sourceOwner := some "owner" } none).2 =
      [AsyncState.loading, AsyncState.success "sig-1"] :=
  (claim_C6_controller_state_sequence
    { authorityProvider := none
      sendTransfer := fun _ _ => .ok "sig-1"
      sourceOwnerProvider := none }
    { amount := 1, destinationOwner := "dest",
      authority := some "auth", sourceOwner := some "owner" } none
    { amount := 1, destinationOwner := "dest",
      authority := "auth", sourceOwner := "owner" } rfl).1 "sig-1" rfl

/-- C7: with no authority in the input and no (or an empty-handed) authority
provider, `send` rejects with the distinct authority message before any state
publish and before the domain operation; with an authority but no resolvable
source owner it rejects with the distinct source-owner message, likewise with
an empty trace.  The two messages mention "authority" and "source owner"
respectively. -/
theorem claim_C7_missing_field_rejection (c : SplTransferControllerConfig)
    (input : SplTransferInput) (options : Option String) :
    (input.authority = none →
      (c.authorityProvider = none ∨ c.authorityProvider = some none) →
      controllerSend c input options =
        (.error [ErrorLink.plainLink authorityErrorMessage], [])) ∧
    (∀ a, input.authority = some a → input.sourceOwner = none →
      (c.sourceOwnerProvider = none ∨ c.sourceOwnerProvider = some none) →
      controllerSend c input options =
        (.error [ErrorLink.plainLink sourceOwnerErrorMessage], [])) ∧
    messageMentions authorityErrorMessage "authority" = true ∧
    messageMentions sourceOwnerErrorMessage "source owner" = true := by
  refine ⟨fun hauth hprov => ?_, fun a hauth hsrc hprov => ?_, by decide, by decide⟩
  · rcases hprov with h | h <;>
      simp [controllerSend, ensureTransferConfig, hauth, h]
  · rcases hprov with h | h <;>
      simp [controllerSend, ensureTransferConfig, hauth, hsrc, h]

/-- C7 witness: concrete inputs exercising both rejection branches. -/
theorem claim_C7_missing_field_rejection_witness :
    controllerSend
      { authorityProvider := none
        sendTransfer := fun _ _ => .ok "sig-1"
        sourceOwnerProvider := none }
      { amount := 1, destinationOwner := "dest" } none =
      (.error [ErrorLink.plainLink authorityErrorMessage], []) ∧
    controllerSend
      { authorityProvider := none
        sendTransfer := fun _ _ => .ok "sig-1"
        sourceOwnerProvider := some none }
      { amount := 1, destinationOwner := "dest", authority := some "auth" } none =
      (.error [ErrorLink.plainLink sourceOwnerErrorMessage], []) :=
  ⟨(claim_C7_missing_field_rejection
      { authorityProvider := none
        sendTransfer := fun _ _ => .ok "sig-1"
        sourceOwnerProvider := none }
      { amount := 1, destinationOwner := "dest" } none).1 rfl (Or.inl rfl),
   (claim_C7_missing_field_rejection
      { authorityProvider := none
        sendTransfer := fun _ _ => .ok "sig-1"
        sourceOwnerProvider := some none }
      { amount := 1, destinationOwner := "dest", authority := some "auth" }
      none).2.1 "auth" rfl rfl (Or.inr rfl)⟩

/-- C10: when the input supplies an authority directly, the configured
authority provider has no influence on `send`'s observable behaviour (result
and full event trace, hence resolved config and state sequence); symmetrically
for a supplied source owner and the source-owner provider. -/
theorem claim_C10_provider_noninterference
    (st : SplTransferPrepareConfig → Option String → Except JsError String)
    (input : SplTransferInput) (options : Option String) :
    (∀ ap₁ ap₂ sp, input.authority.isSome →
      controllerSend ⟨ap₁, st, sp⟩ input options =
        controllerSend ⟨ap₂, st, sp⟩ input options) ∧
    (∀ ap sp₁ sp₂, input.sourceOwner.isSome →
      controllerSend ⟨ap, st, sp₁⟩ input options =
        controllerSend ⟨ap, st, sp₂⟩ input options) := by
  constructor
  · intro ap₁ ap₂ sp h
    simp [controllerSend, h]
  · intro ap sp₁ sp₂ h
    simp [controllerSend, h]

/-- C10 witness: two controllers differing only in their authority provider
behave identically on an input that supplies the authority. -/
theorem claim_C10_provider_noninterference_witness :
    controllerSend ⟨none, fun _ _ => .ok "sig-1", some (some "owner")⟩
      { amount := 1, destinationOwner := "dest", authority := some "auth" } none =
    controllerSend ⟨some (some "other"), fun _ _ => .ok "sig-1", some (some "owner")⟩
      { amount := 1, destinationOwner := "dest", authority := some "auth" } none :=
  (claim_C10_provider_noninterference (fun _ _ => .ok "sig-1")
    { amount := 1, destinationOwner := "dest", authority := some "auth" } none).1
    none (some (some "other")) (some (some "owner")) rfl
